import Mathlib

/-!
Shallow embedding of the PID pose controller in
`hector_quadrotor_controller/src/pose_controller.cpp`.

C++ `double` values are modelled by `Option ℚ`: `some q` is the finite
value `q` and `none` is NaN (quiet_NaN).  Arithmetic propagates NaN;
ordered comparisons on a NaN operand are false, exactly as in IEEE-754.
Exact rational arithmetic stands in for binary floating point: the claims
under study concern branch structure, clamping and NaN propagation, not
rounding.  `ros::Duration::toSec()` always yields a finite number, so the
tick length `dt` is a plain rational.
-/

namespace PoseController

/-- A C++ double: `some q` is the finite value `q`, `none` is NaN. -/
abbrev D := Option ℚ

/-- Double addition; NaN-propagating. -/
def dadd : D → D → D
  | some x, some y => some (x + y)
  | _, _ => none

/-- Double subtraction; NaN-propagating. -/
def dsub : D → D → D
  | some x, some y => some (x - y)
  | _, _ => none

/-- Double multiplication; NaN-propagating. -/
def dmul : D → D → D
  | some x, some y => some (x * y)
  | _, _ => none

/-- Double negation; NaN-propagating. -/
def dneg : D → D
  | some x => some (-x)
  | none => none

/-- Double division. NaN operands give NaN; in the source the only division
is guarded by `dt > 0.0`, so the divisor is never zero there. -/
def ddiv : D → D → D
  | some x, some y => if y = 0 then none else some (x / y)
  | _, _ => none

/-- The C++ comparison `a > b` on doubles: false when either side is NaN. -/
def dgt : D → D → Bool
  | some x, some y => decide (y < x)
  | _, _ => false

/-- The C++ comparison `a < b` on doubles: false when either side is NaN. -/
def dlt : D → D → Bool
  | some x, some y => decide (x < y)
  | _, _ => false

/-- `std::isnan`. -/
def disnan : D → Bool
  | none => true
  | some _ => false

/-- Per-channel PID state, mirroring `struct PoseController::state`. -/
structure state where
  p : D
  i : D
  d : D
  derivative : D
deriving DecidableEq, Repr

/-- The default constructor `PoseController::state::state()`
(pose_controller.cpp lines 70-76): `p`, `d`, `derivative` seeded with
quiet_NaN and `i` with 0.0. -/
def stateInit : state :=
  { p := none, i := some 0, d := none, derivative := none }

/-- Per-channel parameter set, mirroring `struct PoseController::parameters`
as loaded by `initParameters` (defaults: `enabled = true`, gains 0.0,
`limit_i` and `limit_output` quiet_NaN). -/
structure parameters where
  enabled : Bool
  k_p : D
  k_i : D
  k_d : D
  limit_i : D
  limit_output : D
deriving DecidableEq, Repr

/-- The four state slots held by the controller
(`state_.x`, `state_.y`, `state_.z`, `state_.yaw`). -/
structure fullState where
  x : state
  y : state
  z : state
  yaw : state
deriving DecidableEq, Repr

/-- `PoseController::reset()` (pose_controller.cpp lines 62-68), verbatim:
the four sequential assignments are `state_.x`, `state_.y`, `state_.x`
again, and `state_.yaw`; `state_.z` is never assigned. -/
def reset (s : fullState) : fullState :=
  let s1 := { s  with x := stateInit }
  let s2 := { s1 with y := stateInit }
  let s3 := { s2 with x := stateInit }
  { s3 with yaw := stateInit }

/-- `checknan` (pose_controller.cpp lines 119-123): a NaN value is replaced
by the default-constructed `T()`, which is 0.0 for double. -/
def checknan (value : D) : D :=
  if disnan value then some 0 else value

/-- The integral-error section of `updatePID` (lines 131-136):
`state.i += error * dt`, then, if `limit_i > 0.0`, the two sequential
clamp statements against `limit_i` and `-limit_i`. -/
def integralUpdate (ps : parameters) (i error : D) (dt : ℚ) : D :=
  let i0 := dadd i (dmul error (some dt))
  if dgt ps.limit_i (some 0) then
    let a := if dgt i0 ps.limit_i then ps.limit_i else i0
    if dlt a (dneg ps.limit_i) then dneg ps.limit_i else a
  else i0

/-- The differential-error section of `updatePID` (lines 139-143):
`(error - state.p) / dt + state.derivative - derivative` when `dt > 0.0`
and neither `state.p` nor `state.derivative` is NaN, else `-derivative`. -/
def derivativeUpdate (st : state) (error derivative : D) (dt : ℚ) : D :=
  if 0 < dt ∧ disnan st.p = false ∧ disnan st.derivative = false then
    dsub (dadd (ddiv (dsub error st.p) (some dt)) st.derivative) derivative
  else dneg derivative

/-- Line 150: `output = k_p * state.p + k_i * state.i + k_d * state.d`,
evaluated after `state.p` has been set to `error` and `state.i`, `state.d`
to their updated values. -/
def rawOutput (ps : parameters) (error i d : D) : D :=
  dadd (dadd (dmul ps.k_p error) (dmul ps.k_i i)) (dmul ps.k_d d)

/-- Lines 151-156: when `limit_output > 0.0`, the two sequential clamp
statements compare `output` against `limit_i` (not `limit_output`) and
record the clamp direction in `antiwindup`; the second statement reads the
possibly already clamped output. -/
def outputClamp (ps : parameters) (out : D) : D × Int :=
  if dgt ps.limit_output (some 0) then
    let a : D × Int := if dgt out ps.limit_i then (ps.limit_i, 1) else (out, 0)
    if dlt a.1 (dneg ps.limit_i) then (dneg ps.limit_i, -1) else a
  else (out, 0)

/-- The guard of line 157, `antiwindup && (error * dt * antiwindup > 0.0)`,
with the clamp direction recomputed from the same inputs `updatePID` uses. -/
def antiwindupFires (error derivative : D) (st : state) (ps : parameters)
    (dt : ℚ) : Bool :=
  let i1 := integralUpdate ps st.i error dt
  let d1 := derivativeUpdate st error derivative dt
  let oc := outputClamp ps (rawOutput ps error i1 d1)
  decide (oc.2 ≠ 0) &&
    dgt (dmul (dmul error (some dt)) (some (oc.2 : ℚ))) (some 0)

/-- `PoseController::updatePID` (pose_controller.cpp lines 125-161).
Returns the output together with the updated channel state; the C++
mutates `state` in place and returns the output. -/
def updatePID (error derivative : D) (st : state) (ps : parameters)
    (dt : ℚ) : D × state :=
  if ps.enabled = false then (some 0, st) else
    let i1 := integralUpdate ps st.i error dt
    let d1 := derivativeUpdate st error derivative dt
    let oc := outputClamp ps (rawOutput ps error i1 d1)
    let i2 := if antiwindupFires error derivative st ps dt then
                dsub i1 (dmul error (some dt))
              else i1
    (checknan oc.1, { p := error, i := i2, d := d1, derivative := derivative })

/-- Pose_controller.cpp line 106: the body-frame x velocity command,
`cos(yaw) * command_n + sin(yaw) * command_w`. -/
noncomputable def body_x (yaw command_n command_w : ℝ) : ℝ :=
  Real.cos yaw * command_n + Real.sin yaw * command_w

/-- Pose_controller.cpp line 107: the body-frame y velocity command,
`-sin(yaw) * command_n + cos(yaw) * command_w`. -/
noncomputable def body_y (yaw command_n command_w : ℝ) : ℝ :=
  -Real.sin yaw * command_n + Real.cos yaw * command_w

/-- Helper: the magnitude test for claims about clamp bounds;
false when either the value or the bound is NaN. -/
def dabsLe : D → D → Bool
  | some v, some l => decide (|v| ≤ l)
  | _, _ => false

/-- A state with all four fields set to finite values, standing for a
channel that has run for a while before the controller is restarted. -/
def dirtyState : state := ⟨some 1, some 2, some 3, some 4⟩

/-- Parameter set for the C2 counterexample: enabled, `k_i = 2`,
`limit_i = 1`, `limit_output = 1`, other gains zero. -/
def psCx2 : parameters := ⟨true, some 0, some 2, some 0, some 1, some 1⟩

/-- Parameter set for the C2 witness: enabled, `k_i = 1`, `limit_i = 1`,
`limit_output` NaN (its default), other gains zero. -/
def psC2 : parameters := ⟨true, some 0, some 1, some 0, some 1, none⟩

/-- Parameter set for the C3 counterexample: enabled, `k_p = 1`,
`limit_i` NaN (its default), `limit_output = 1`. -/
def psCx3 : parameters := ⟨true, some 1, some 0, some 0, none, some 1⟩

/-- Parameter set for the C3 witness: enabled, `k_p = 1`, `limit_i = 2`,
`limit_output = 1`. -/
def psC3 : parameters := ⟨true, some 1, some 0, some 0, some 2, some 1⟩

/-- An enabled parameter set with default gains and limits, for the C5
witness. -/
def psC5 : parameters := ⟨true, some 0, some 0, some 0, none, none⟩

/-- A disabled parameter set with nonzero gains and limits, for the C6
witness. -/
def psC6 : parameters := ⟨false, some 1, some 1, some 1, some 1, some 1⟩

/-- Parameter set of the C8 scenario: enabled, `k_i = 1`, `limit_i = 1`,
`limit_output` NaN (its default), other gains zero. -/
def psC8 : parameters := ⟨true, some 0, some 1, some 0, some 1, none⟩

/-- One tick of the C8 scenario: `error = 5`, measured rate 0, `dt = 1`. -/
def stepC8 (s : state) : state := (updatePID (some 5) (some 0) s psC8 1).2

/-- Parameter set for C9: enabled, `k_p = 1`, `limit_i` NaN (its default),
`limit_output = 1`. -/
def psC9 : parameters := ⟨true, some 1, some 0, some 0, none, some 1⟩

/-- An enabled parameter set with nonzero gains and limits, for the C10
witness. -/
def psC10 : parameters := ⟨true, some 1, some 1, some 1, some 1, some 1⟩

/-! Helper lemmas about NaN propagation and the comparison functions. -/

theorem dgt_none_left (y : D) : dgt none y = false := by cases y <;> rfl

theorem dgt_none_right (x : D) : dgt x none = false := by cases x <;> rfl

theorem dlt_none_left (y : D) : dlt none y = false := by cases y <;> rfl

theorem dlt_none_right (x : D) : dlt x none = false := by cases x <;> rfl

theorem dadd_none_left (y : D) : dadd none y = none := by cases y <;> rfl

theorem dadd_none_right (x : D) : dadd x none = none := by cases x <;> rfl

theorem dmul_none_left (y : D) : dmul none y = none := by cases y <;> rfl

theorem dsub_none_left (y : D) : dsub none y = none := by cases y <;> rfl

theorem checknan_eq_some (x : D) : ∃ v : ℚ, checknan x = some v := by
  cases x with
  | none => exact ⟨0, rfl⟩
  | some q => exact ⟨q, rfl⟩

/-- When `limit_output` is NaN the output-clamp section is skipped entirely. -/
theorem outputClamp_nan_limit_output (ps : parameters) (out : D)
    (h : ps.limit_output = none) : outputClamp ps out = (out, 0) := by
  simp [outputClamp, h, dgt_none_left]

/-- When `limit_i` is NaN both output-clamp comparisons are false. -/
theorem outputClamp_nan_limit_i (ps : parameters) (out : D)
    (h : ps.limit_i = none) : outputClamp ps out = (out, 0) := by
  unfold outputClamp
  rw [h]
  simp [dgt_none_right, dneg, dlt_none_right]

/-- When `limit_i` is NaN the integral clamp is skipped entirely. -/
theorem integralUpdate_nan_limit_i (ps : parameters) (i e : D) (dt : ℚ)
    (h : ps.limit_i = none) :
    integralUpdate ps i e dt = dadd i (dmul e (some dt)) := by
  simp [integralUpdate, h, dgt_none_left]

/-- When `limit_output` is NaN the anti-windup guard is false. -/
theorem antiwindupFires_nan_limit_output (e dv : D) (st : state)
    (ps : parameters) (dt : ℚ) (h : ps.limit_output = none) :
    antiwindupFires e dv st ps dt = false := by
  simp [antiwindupFires, outputClamp_nan_limit_output ps _ h]

/-- When `limit_i` is NaN the anti-windup guard is false. -/
theorem antiwindupFires_nan_limit_i (e dv : D) (st : state)
    (ps : parameters) (dt : ℚ) (h : ps.limit_i = none) :
    antiwindupFires e dv st ps dt = false := by
  simp [antiwindupFires, outputClamp_nan_limit_i ps _ h]

/-- A NaN pre-update integral stays NaN through the integral section. -/
theorem integralUpdate_nan_i (ps : parameters) (e : D) (dt : ℚ) :
    integralUpdate ps none e dt = none := by
  unfold integralUpdate
  rw [dadd_none_left]
  split
  · simp [dgt_none_left, dlt_none_left]
  · rfl

/-- A NaN error makes the post-update integral NaN. -/
theorem integralUpdate_nan_e (ps : parameters) (i : D) (dt : ℚ) :
    integralUpdate ps i none dt = none := by
  unfold integralUpdate
  rw [dmul_none_left, dadd_none_right]
  split
  · simp [dgt_none_left, dlt_none_left]
  · rfl

/-- C1: the claim says `reset()` reinitializes all four per-channel state
slots, including the height (z) slot, to freshly constructed states.  The
code assigns `state_.x` twice (lines 64 and 66) and never assigns
`state_.z`: starting the controller from a dirty state leaves the height
channel's integral, previous error and previous rate untouched, while the
x, y and yaw slots are reinitialized. -/
theorem reset_skips_height_state :
    (reset ⟨dirtyState, dirtyState, dirtyState, dirtyState⟩).z = dirtyState ∧
    dirtyState ≠ stateInit ∧
    (reset ⟨dirtyState, dirtyState, dirtyState, dirtyState⟩).x = stateInit ∧
    (reset ⟨dirtyState, dirtyState, dirtyState, dirtyState⟩).y = stateInit ∧
    (reset ⟨dirtyState, dirtyState, dirtyState, dirtyState⟩).yaw = stateInit := by
  refine ⟨rfl, ?_, rfl, rfl, rfl⟩
  decide

/-- C4: for every error, measured rate, prior state, parameter set and
tick length, the value returned by `updatePID` is a number, never NaN: a
disabled channel returns 0, and on an enabled channel the output passes
through `checknan`, which replaces NaN by 0. -/
theorem updatePID_never_nan (error dv : D) (st : state) (ps : parameters)
    (dt : ℚ) : ∃ v : ℚ, (updatePID error dv st ps dt).1 = some v := by
  unfold updatePID
  by_cases h : ps.enabled = false
  · rw [if_pos h]
    exact ⟨0, rfl⟩
  · rw [if_neg h]
    exact checknan_eq_some _

/-- C5: on an enabled channel the stored derivative term is
`(error - p) / dt + previous_derivative - measured_rate` when `dt > 0`
and both stored previous values are numbers, and `-measured_rate`
otherwise (first tick after reset, or `dt = 0`, where no division is
performed). -/
theorem updatePID_derivative_branch (error dv : D) (st : state)
    (ps : parameters) (dt : ℚ) (h : ps.enabled = true) :
    (updatePID error dv st ps dt).2.d =
      if 0 < dt ∧ disnan st.p = false ∧ disnan st.derivative = false then
        dsub (dadd (ddiv (dsub error st.p) (some dt)) st.derivative) dv
      else dneg dv := by
  simp only [updatePID, h, Bool.true_eq_false, if_false]
  rfl

/-- Witness for C5 at a concrete first tick after reset: the previous
error is NaN, so the derivative term is the negated measured rate. -/
theorem updatePID_derivative_branch_witness :
    (updatePID (some 2) (some 3) stateInit psC5 1).2.d = some (-3) := by
  have h := updatePID_derivative_branch (some 2) (some 3) stateInit psC5 1 rfl
  simpa [stateInit, disnan, dneg] using h

/-- C6: a disabled channel returns exactly 0 and leaves every state field
unchanged, for all error, measured-rate, tick-length and prior-state
values. -/
theorem updatePID_disabled_identity (error dv : D) (st : state)
    (ps : parameters) (dt : ℚ) (h : ps.enabled = false) :
    updatePID error dv st ps dt = (some 0, st) := by
  simp [updatePID, h]

/-- Witness for C6 on a concrete disabled parameter set and dirty state. -/
theorem updatePID_disabled_identity_witness :
    updatePID (some 7) (some 3) dirtyState psC6 2 = (some 0, dirtyState) :=
  updatePID_disabled_identity (some 7) (some 3) dirtyState psC6 2 rfl

/-- C7: the body-frame transform of the two horizontal commands is
`body_x = cos(yaw) * command_n + sin(yaw) * command_w` and
`body_y = -sin(yaw) * command_n + cos(yaw) * command_w`; at `yaw = 0` it
is the identity and at `yaw = π / 2` it maps `(n, w)` to `(w, -n)`. -/
theorem body_frame_rotation (n w : ℝ) :
    (∀ yaw : ℝ, body_x yaw n w = Real.cos yaw * n + Real.sin yaw * w ∧
       body_y yaw n w = -Real.sin yaw * n + Real.cos yaw * w) ∧
    body_x 0 n w = n ∧ body_y 0 n w = w ∧
    body_x (Real.pi / 2) n w = w ∧ body_y (Real.pi / 2) n w = -n := by
  refine ⟨fun yaw => ⟨rfl, rfl⟩, ?_, ?_, ?_, ?_⟩ <;>
    simp [body_x, body_y]

/-- C10: the NaN sanitization in `updatePID` applies only to the returned
output, never to the stored state: on an enabled channel a NaN integral
stays NaN through every subsequent call, and a single call with a NaN
error makes the stored integral NaN. -/
theorem nan_integral_persists :
    (∀ (error dv : D) (st : state) (ps : parameters) (dt : ℚ),
       ps.enabled = true → st.i = none →
       (updatePID error dv st ps dt).2.i = none) ∧
    (∀ (dv : D) (st : state) (ps : parameters) (dt : ℚ),
       ps.enabled = true → (updatePID none dv st ps dt).2.i = none) := by
  constructor
  · intro error dv st ps dt hen hi
    simp only [updatePID, hen, Bool.true_eq_false, if_false, hi,
      integralUpdate_nan_i]
    split
    · exact dsub_none_left _
    · rfl
  · intro dv st ps dt hen
    simp only [updatePID, hen, Bool.true_eq_false, if_false,
      integralUpdate_nan_e]
    split
    · exact dsub_none_left _
    · rfl

/-- Witness for C10 on a concrete state with a NaN integral. -/
theorem nan_integral_persists_witness :
    (updatePID (some 1) (some 0) ⟨some 1, none, some 1, some 1⟩ psC10 1).2.i
      = none :=
  nan_integral_persists.1 (some 1) (some 0) ⟨some 1, none, some 1, some 1⟩
    psC10 1 rfl rfl

/-- C9: when `limit_i` is NaN (its default) and the channel is enabled,
neither output-clamp branch fires and the anti-windup correction never
runs — the integral becomes exactly `i + error * dt` and the output is the
unclamped raw PID sum — so with `psC9` (`limit_output = 1`, `k_p = 1`) a
call with error 5 returns 5, which exceeds the configured `limit_output`
of 1 in magnitude. -/
theorem nan_limit_i_no_clamp :
    (∀ (error dv : D) (st : state) (ps : parameters) (dt : ℚ),
       ps.enabled = true → ps.limit_i = none →
       (updatePID error dv st ps dt).2.i = dadd st.i (dmul error (some dt)) ∧
       (updatePID error dv st ps dt).1 =
         checknan (rawOutput ps error (dadd st.i (dmul error (some dt)))
           (derivativeUpdate st error dv dt))) ∧
    (psC9.limit_output = some 1 ∧ (0 : ℚ) < 1 ∧
       (updatePID (some 5) (some 0) stateInit psC9 0).1 = some 5 ∧
       ¬ (|(5 : ℚ)| ≤ 1)) := by
  constructor
  · intro error dv st ps dt hen hL
    constructor
    · simp only [updatePID, hen, Bool.true_eq_false, if_false,
        integralUpdate_nan_limit_i ps _ _ _ hL,
        antiwindupFires_nan_limit_i _ _ _ _ _ hL, Bool.false_eq_true, if_false]
    · simp only [updatePID, hen, Bool.true_eq_false, if_false,
        integralUpdate_nan_limit_i ps _ _ _ hL,
        outputClamp_nan_limit_i ps _ hL]
  · refine ⟨rfl, by norm_num, ?_, by norm_num⟩
    norm_num [updatePID, integralUpdate, derivativeUpdate, rawOutput,
      outputClamp, antiwindupFires, checknan, dadd, dmul, dgt, dlt, dneg,
      dsub, ddiv, disnan, stateInit, psC9]

/-- Witness for C9's universal part at a concrete call. -/
theorem nan_limit_i_no_clamp_witness :
    (updatePID (some 2) (some 0) stateInit psC9 1).2.i
      = dadd stateInit.i (dmul (some 2) (some 1)) :=
  ((nan_limit_i_no_clamp.1 (some 2) (some 0) stateInit psC9 1) rfl rfl).1

/-- One saturated C8 tick keeps the integral at the clamp value 1. -/
theorem stepC8_i_fixed (s : state) (h : s.i = some 1) :
    (stepC8 s).i = some 1 := by
  have haw : antiwindupFires (some 5) (some 0) s psC8 1 = false :=
    antiwindupFires_nan_limit_output _ _ _ _ _ rfl
  have hen : psC8.enabled = true := rfl
  simp only [stepC8, updatePID, hen, Bool.true_eq_false, if_false, haw,
    Bool.false_eq_true, h]
  norm_num [integralUpdate, psC8, dadd, dmul, dgt, dlt, dneg]

/-- C8: in the scenario `limit_i = 1`, `k_i = 1`, `limit_output` NaN,
starting from a freshly reset channel state, every sequence of one or more
ticks with error 5, measured rate 0 and `dt = 1` leaves the stored
integral at exactly 1: it saturates on the first tick and stays there. -/
theorem integral_saturation_scenario (n : ℕ) :
    (stepC8^[n + 1] stateInit).i = some 1 := by
  induction n with
  | zero =>
      rw [Function.iterate_one]
      have haw : antiwindupFires (some 5) (some 0) stateInit psC8 1 = false :=
        antiwindupFires_nan_limit_output _ _ _ _ _ rfl
      have hen : psC8.enabled = true := rfl
      have hi : stateInit.i = some 0 := rfl
      simp only [stepC8, updatePID, hen, Bool.true_eq_false, if_false, haw,
        Bool.false_eq_true, hi]
      norm_num [integralUpdate, psC8, dadd, dmul, dgt, dlt, dneg]
  | succ k ih =>
      rw [Function.iterate_succ_apply']
      exact stepC8_i_fixed _ ih

/-- C2 counterexample: with `limit_i = 1`, `limit_output = 1`, `k_i = 2`,
a fresh state and one call with error 1000 and `dt = 1`, the integral is
first clamped to 1, the output clamp fires, and the anti-windup
correction `i -= error * dt` drives the integral to -999, far beyond
`±limit_i`. -/
theorem antiwindup_breaks_integral_clamp_cx :
    psCx2.enabled = true ∧ psCx2.limit_i = some 1 ∧ (0 : ℚ) < 1 ∧
    (updatePID (some 1000) (some 0) stateInit psCx2 1).2.i = some (-999) ∧
    ¬ (|(-999 : ℚ)| ≤ 1) := by
  refine ⟨rfl, rfl, by norm_num, ?_, by norm_num⟩
  norm_num [updatePID, integralUpdate, derivativeUpdate, rawOutput,
    outputClamp, antiwindupFires, checknan, dadd, dmul, dgt, dlt, dneg,
    dsub, ddiv, disnan, stateInit, psCx2]

/-- C2 amended: on an enabled channel with a positive `limit_i`, a
numeric prior integral and a numeric error, any call in which the
anti-windup correction of line 157 does not fire leaves
`|state.i| ≤ limit_i`; the counterexample shows the correction itself can
break the bound. -/
theorem integral_clamp_without_antiwindup (e v0 : ℚ) (dv : D) (st : state)
    (ps : parameters) (dt L : ℚ) (hen : ps.enabled = true)
    (hL : ps.limit_i = some L) (hLpos : 0 < L) (hi : st.i = some v0)
    (haw : antiwindupFires (some e) dv st ps dt = false) :
    ∃ v : ℚ, (updatePID (some e) dv st ps dt).2.i = some v ∧ |v| ≤ L := by
  have hmain : (updatePID (some e) dv st ps dt).2.i
      = integralUpdate ps st.i (some e) dt := by
    simp only [updatePID, hen, Bool.true_eq_false, if_false, haw,
      Bool.false_eq_true]
  rw [hmain, hi]
  unfold integralUpdate
  rw [hL]
  simp only [dadd, dmul, dgt, dlt, dneg, decide_eq_true_eq, hLpos, if_true]
  rcases lt_or_le L (v0 + e * dt) with h1 | h1
  · have hnot : ¬ (L < -L) := by linarith
    simp only [h1, if_true, hnot, if_false]
    exact ⟨L, rfl, by rw [abs_of_pos hLpos]⟩
  · simp only [h1.not_lt, if_false]
    rcases lt_or_le (v0 + e * dt) (-L) with h2 | h2
    · simp only [h2, if_true]
      refine ⟨-L, rfl, ?_⟩
      rw [abs_neg, abs_of_pos hLpos]
    · simp only [h2.not_lt, if_false]
      exact ⟨v0 + e * dt, rfl, abs_le.mpr ⟨h2, h1⟩⟩

/-- Witness for C2's amended theorem: `limit_i = 1`, `k_i = 1`,
`limit_output` NaN so the anti-windup guard is false, error 5, `dt = 1`. -/
theorem integral_clamp_without_antiwindup_witness :
    ∃ v : ℚ, (updatePID (some 5) (some 0) stateInit psC2 1).2.i = some v ∧
      |v| ≤ 1 :=
  integral_clamp_without_antiwindup 5 0 (some 0) stateInit psC2 1 1 rfl rfl
    (by norm_num) rfl (antiwindupFires_nan_limit_output _ _ _ _ _ rfl)

/-- C3 counterexample: `limit_output = 1 > 0` but `limit_i` is NaN (its
default), `k_p = 1`: a call with error 5 on a fresh state returns 5, and
the magnitude test against `limit_i` is false — the output is not bounded
by `±limit_i` at all. -/
theorem output_clamp_nan_limit_cx :
    psCx3.limit_output = some 1 ∧ dgt psCx3.limit_output (some 0) = true ∧
    (updatePID (some 5) (some 0) stateInit psCx3 0).1 = some 5 ∧
    dabsLe (updatePID (some 5) (some 0) stateInit psCx3 0).1 psCx3.limit_i
      = false := by
  have hout : (updatePID (some 5) (some 0) stateInit psCx3 0).1 = some 5 := by
    norm_num [updatePID, integralUpdate, derivativeUpdate, rawOutput,
      outputClamp, antiwindupFires, checknan, dadd, dmul, dgt, dlt, dneg,
      dsub, ddiv, disnan, stateInit, psCx3]
  refine ⟨rfl, by norm_num [dgt, psCx3], hout, ?_⟩
  rw [hout]
  rfl

/-- The output-clamp section followed by `checknan` bounds the output by
`limit_i` whenever `limit_output` is positive and `limit_i` is a
non-negative number. -/
theorem outputClamp_abs_le (ps : parameters) (out : D) (Lo L : ℚ)
    (hLo : ps.limit_output = some Lo) (hLopos : 0 < Lo)
    (hL : ps.limit_i = some L) (hLnn : 0 ≤ L) :
    dabsLe (checknan (outputClamp ps out).1) ps.limit_i = true := by
  have hnot : ¬ (L < -L) := by linarith
  unfold outputClamp
  rw [hLo, hL]
  cases out with
  | none =>
      simp [dgt, dlt, dneg, checknan, disnan, dabsLe, hLopos, hLnn, hL,
        abs_nonneg]
  | some v =>
      rcases lt_or_le L v with h1 | h1
      · simp [dgt, dlt, dneg, checknan, disnan, dabsLe, hLopos, h1, hnot, hL,
          abs_of_nonneg hLnn]
      · rcases lt_or_le v (-L) with h2 | h2
        · simp [dgt, dlt, dneg, checknan, disnan, dabsLe, hLopos, h1.not_lt,
            h2, hL, abs_neg, abs_of_nonneg hLnn]
        · simp [dgt, dlt, dneg, checknan, disnan, dabsLe, hLopos, h1.not_lt,
            h2.not_lt, hL, abs_le.mpr ⟨h2, h1⟩]

/-- C3 amended: on an enabled channel with positive `limit_output` and a
non-negative numeric `limit_i`, the returned output never exceeds
`±limit_i` in magnitude (the clamp comparison and target both use
`limit_i`, not `limit_output`); with a NaN `limit_i` (its default) no
clamp fires and the bound fails, per the counterexample. -/
theorem output_bounded_by_limit_i (error dv : D) (st : state)
    (ps : parameters) (dt Lo L : ℚ) (hen : ps.enabled = true)
    (hLo : ps.limit_output = some Lo) (hLopos : 0 < Lo)
    (hL : ps.limit_i = some L) (hLnn : 0 ≤ L) :
    dabsLe (updatePID error dv st ps dt).1 ps.limit_i = true := by
  have h1 : (updatePID error dv st ps dt).1
      = checknan (outputClamp ps (rawOutput ps error
          (integralUpdate ps st.i error dt)
          (derivativeUpdate st error dv dt))).1 := by
    simp only [updatePID, hen, Bool.true_eq_false, if_false]
  rw [h1]
  exact outputClamp_abs_le ps _ Lo L hLo hLopos hL hLnn

/-- Witness for C3's amended theorem: `limit_output = 1`, `limit_i = 2`,
`k_p = 1`, error 5 on a fresh state. -/
theorem output_bounded_by_limit_i_witness :
    dabsLe (updatePID (some 5) (some 0) stateInit psC3 0).1 psC3.limit_i
      = true :=
  output_bounded_by_limit_i (some 5) (some 0) stateInit psC3 0 1 2 rfl rfl
    (by norm_num) rfl (by norm_num)

end PoseController
